import Mathlib

/-!
Verification of the configuration-resolution and request-dispatch layer of the
`exoscale` Python client library.

The Python sources embedded here are `exoscale/__init__.py` (the `Exoscale`
client constructor with its multi-source configuration resolution) and
`exoscale/api/__init__.py` (the `API` base class with traced `send`, and the
`Resource` wrapper with in-place `_reset`).

Python-specific conventions modelled explicitly:
  * `Option String` stands for a Python variable that may hold `None` or a
    string; `truthy` is Python truthiness (both `None` and `""` are falsy).
  * TOML documents are modelled at the granularity the code inspects them:
    top-level keys `profiles` and `default_profile`, plus a flag recording
    whether any other top-level key exists (which only matters for the dict
    truthiness test on line 79 of `exoscale/__init__.py`).
  * The process environment is a function from variable name to
    `Option String` (`os.getenv` with default `None`).
  * The filesystem is a function from path to the parsed TOML content of the
    file at that path, when the file exists.
  * Uncaught Python exceptions other than `ConfigurationError` (the `KeyError`
    from `a["name"]`, the `OSError` from `open` on a missing path) are distinct
    error constructors.
-/

set_option autoImplicit false

namespace Exoscale

/-- Python truthiness of an optional string: `None` and `""` are falsy. -/
def truthy : Option String → Bool
  | none => false
  | some s => !(s == "")

@[simp] theorem truthy_none : truthy none = false := rfl

@[simp] theorem truthy_some (s : String) : truthy (some s) = !(s == "") := rfl

/-- `x if x else y` — the fall-through combinator used by every per-field merge
step in `Exoscale.__init__` (lines 93-162). -/
def fallback (x y : Option String) : Option String :=
  if truthy x then x else y

/-- A configuration profile: a TOML table, modelled as an association list from
string keys to string values (the code only ever reads string-valued keys). -/
structure Profile where
  entries : List (String × String)
deriving DecidableEq, Repr

/-- Python `profile.get(k, None)` / `profile[k]` lookup (first entry wins). -/
def Profile.get? (p : Profile) (k : String) : Option String :=
  match p.entries.find? (fun e => e.1 == k) with
  | some e => some e.2
  | none => none

/-- Python `k in profile`. -/
def Profile.hasKey (p : Profile) (k : String) : Bool :=
  (p.get? k).isSome

/-- A parsed configuration file: the top-level TOML table as the code reads it.
`hasOtherKeys` records the presence of top-level keys other than the two the
code inspects; it only feeds the dict-truthiness test on line 79. -/
structure Config where
  profiles : Option (List Profile)
  default_profile : Option String
  hasOtherKeys : Bool
deriving DecidableEq, Repr

/-- Python truthiness of the parsed TOML dict: non-empty. -/
def Config.truthyDict (c : Config) : Bool :=
  c.profiles.isSome || c.default_profile.isSome || c.hasOtherKeys

/-- Outcomes of a failed construction. `configurationError` is the library's
own exception; `keyError` models the uncaught Python `KeyError` raised by
`a["name"]` on a nameless profile; `ioError` models the uncaught `OSError`
from `open` on a missing path. -/
inductive Err where
  | configurationError (reason : String)
  | keyError (key : String)
  | ioError (path : String)
deriving DecidableEq, Repr

/-- The process environment: `os.getenv(name, None)`. -/
def Env : Type := String → Option String

/-- The filesystem, at the granularity the code uses it: the parsed TOML
content of the file at a path, when that file exists. -/
def Fs : Type := String → Option Config

def _API_KEY_ENVVAR : String := "EXOSCALE_API_KEY"
def _API_SECRET_ENVVAR : String := "EXOSCALE_API_SECRET"
def _COMPUTE_API_ENDPOINT_ENVVAR : String := "EXOSCALE_COMPUTE_API_ENDPOINT"
def _DNS_API_ENDPOINT_ENVVAR : String := "EXOSCALE_DNS_API_ENDPOINT"
def _RUNSTATUS_API_ENDPOINT_ENVVAR : String := "EXOSCALE_RUNSTATUS_API_ENDPOINT"
def _STORAGE_API_ENDPOINT_ENVVAR : String := "EXOSCALE_STORAGE_API_ENDPOINT"
def _IAM_API_ENDPOINT_ENVVAR : String := "EXOSCALE_IAM_API_ENDPOINT"
def _STORAGE_ZONE_ENVVAR : String := "EXOSCALE_STORAGE_ZONE"
def _CONFIG_FILE_ENVVAR : String := "EXOSCALE_CONFIG_FILE"

/-- `os.path.join(pathlib.Path.home(), "config.toml")`: a fixed well-known
path under the user's home directory, opaque to the resolution logic. -/
def _DEFAULT_CONFIG_FILE : String := "/home/user/config.toml"

/-- The keyword arguments of `Exoscale.__init__`, with their Python defaults. -/
structure Args where
  config_file : Option String := none
  profile : Option String := none
  api_key : Option String := none
  api_secret : Option String := none
  compute_api_endpoint : Option String := none
  dns_api_endpoint : Option String := none
  storage_api_endpoint : Option String := none
  storage_zone : Option String := none
  runstatus_api_endpoint : Option String := none
  iam_api_endpoint : Option String := none
  max_retries : Int := 3
  trace : Bool := false

/-- Lines 70-74: `config_file = config_file if config_file else
os.getenv(_CONFIG_FILE_ENVVAR, None)`. -/
def choosePath (args : Args) (env : Env) : Option String :=
  if truthy args.config_file then args.config_file else env _CONFIG_FILE_ENVVAR

/-- `open(p)` followed by `toml.load`: the parsed content, or an `OSError`
when no file exists at the path. -/
def openFile (fs : Fs) (p : String) : Except Err Config :=
  match fs p with
  | some c => .ok c
  | none => .error (.ioError p)

/-- Lines 70-83: locate and load the configuration file. The result is the
final value of `self._config` (`none` when the attribute was never assigned).
Line 75 only opens a truthy path; line 79 re-tests the loaded dict for
truthiness — an empty parsed table counts as unset — and then falls back to
the well-known default path when a file exists there. -/
def loadConfig (args : Args) (env : Env) (fs : Fs) : Except Err (Option Config) :=
  let step1 : Except Err (Option Config) :=
    match choosePath args env with
    | some p => if p == "" then .ok none else (openFile fs p).map some
    | none => .ok none
  match step1 with
  | .error e => .error e
  | .ok c1 =>
    let unsetOrFalsy : Bool :=
      match c1 with
      | none => true
      | some c => !c.truthyDict
    if unsetOrFalsy && (fs _DEFAULT_CONFIG_FILE).isSome then
      match fs _DEFAULT_CONFIG_FILE with
      | some c => .ok (some c)
      | none => .ok c1
    else .ok c1

/-- The linear search of `_get_profile` (lines 233-235): return the first
profile `a` with `a["name"] == target`; a profile with no `"name"` key raises
`KeyError` before the search can continue. `target` keeps the Python value
being compared (comparison against `None` is simply never equal). -/
def findProfile : List Profile → Option String → Except Err (Option Profile)
  | [], _ => .ok none
  | a :: rest, target =>
    match a.get? "name" with
    | none => .error (.keyError "name")
    | some n => if some n == target then .ok (some a) else findProfile rest target

/-- `Exoscale._get_profile` (lines 222-239). -/
def getProfile (c : Config) (profileArg : Option String) : Except Err Profile :=
  match c.profiles with
  | none => .error (.configurationError "no profiles configured")
  | some [] => .error (.configurationError "no profiles configured")
  | some (a :: rest) =>
    if truthy profileArg || c.default_profile.isSome then
      let target : Option String :=
        if c.default_profile.isSome && !truthy profileArg then
          c.default_profile
        else profileArg
      match findProfile (a :: rest) target with
      | .error e => .error e
      | .ok (some q) => .ok q
      | .ok none =>
        .error (.configurationError
          ("profile \"" ++ target.getD "" ++ "\" not found"))
    else .ok a

/-- The eight resolvable fields threaded through the merge steps of
`Exoscale.__init__`. -/
structure Fields where
  api_key : Option String
  api_secret : Option String
  compute_api_endpoint : Option String
  dns_api_endpoint : Option String
  storage_api_endpoint : Option String
  storage_zone : Option String
  runstatus_api_endpoint : Option String
  iam_api_endpoint : Option String
deriving DecidableEq, Repr

/-- The resolvable fields as passed explicitly to the constructor. -/
def Args.fields (a : Args) : Fields :=
  { api_key := a.api_key
    api_secret := a.api_secret
    compute_api_endpoint := a.compute_api_endpoint
    dns_api_endpoint := a.dns_api_endpoint
    storage_api_endpoint := a.storage_api_endpoint
    storage_zone := a.storage_zone
    runstatus_api_endpoint := a.runstatus_api_endpoint
    iam_api_endpoint := a.iam_api_endpoint }

/-- Lines 87-91: `for k in {"name", "api_key", "api_secret"}: if k not in
profile: raise`. CPython iterates the set literal in an implementation-defined
order; we fix one order — only which missing key gets named in the message
depends on it. -/
def requiredKeyCheck (p : Profile) : Option String :=
  ["name", "api_key", "api_secret"].find? (fun k => !(p.hasKey k))

/-- Lines 93-126: per-field merge of the selected profile into the explicit
arguments (`x = profile[k] if not x else x`, resp. `profile.get(k, None)`). -/
def mergeProfile (f : Fields) (p : Profile) : Fields :=
  { api_key := fallback f.api_key (p.get? "api_key")
    api_secret := fallback f.api_secret (p.get? "api_secret")
    compute_api_endpoint :=
      fallback f.compute_api_endpoint (p.get? "compute_api_endpoint")
    dns_api_endpoint := fallback f.dns_api_endpoint (p.get? "dns_api_endpoint")
    storage_api_endpoint :=
      fallback f.storage_api_endpoint (p.get? "storage_api_endpoint")
    storage_zone := fallback f.storage_zone (p.get? "storage_zone")
    runstatus_api_endpoint :=
      fallback f.runstatus_api_endpoint (p.get? "runstatus_api_endpoint")
    iam_api_endpoint := fallback f.iam_api_endpoint (p.get? "iam_api_endpoint") }

/-- Lines 128-162: per-field fall-through to environment variables. -/
def envMerge (f : Fields) (env : Env) : Fields :=
  { api_key := fallback f.api_key (env _API_KEY_ENVVAR)
    api_secret := fallback f.api_secret (env _API_SECRET_ENVVAR)
    compute_api_endpoint :=
      fallback f.compute_api_endpoint (env _COMPUTE_API_ENDPOINT_ENVVAR)
    dns_api_endpoint :=
      fallback f.dns_api_endpoint (env _DNS_API_ENDPOINT_ENVVAR)
    storage_api_endpoint :=
      fallback f.storage_api_endpoint (env _STORAGE_API_ENDPOINT_ENVVAR)
    storage_zone := fallback f.storage_zone (env _STORAGE_ZONE_ENVVAR)
    runstatus_api_endpoint :=
      fallback f.runstatus_api_endpoint (env _RUNSTATUS_API_ENDPOINT_ENVVAR)
    iam_api_endpoint :=
      fallback f.iam_api_endpoint (env _IAM_API_ENDPOINT_ENVVAR) }

/-- Lines 85-162: the profile step (when a configuration was loaded) followed
by nothing — the environment fall-through is applied by the caller. -/
def profileStep (args : Args) (cfg? : Option Config) : Except Err Fields :=
  match cfg? with
  | none => .ok args.fields
  | some c =>
    match getProfile c args.profile with
    | .error e => .error e
    | .ok p =>
      match requiredKeyCheck p with
      | some k =>
        .error (.configurationError ("profile missing \"" ++ k ++ "\" key"))
      | none => .ok (mergeProfile args.fields p)

/-- Lines 70-162: the fully resolved fields of a construction attempt. -/
def resolveFields (args : Args) (env : Env) (fs : Fs) : Except Err Fields :=
  match loadConfig args env fs with
  | .error e => .error e
  | .ok cfg? =>
    match profileStep args cfg? with
    | .error e => .error e
    | .ok f0 => .ok (envMerge f0 env)

/-- A per-family API client, at the granularity of the kwargs `Exoscale`
passes plus the `API` base-class attributes it populates. `endpoint = none`
means the kwarg was omitted so the family's compiled-in default applies;
`session` is an object identity. -/
structure FamilyAPI where
  endpoint : Option String
  key : String
  secret : String
  zone : Option String
  max_retries : Int
  trace : Bool
  session : Nat
deriving DecidableEq, Repr

/-- The identity of the one `requests.Session()` object created when the
`attrs` field default of `API.session` was evaluated — once, at class
definition time — and therefore shared by every `API` instance that is not
given an explicit session. -/
def defaultSessionId : Nat := 0

/-- Construction of one family client from the kwargs `Exoscale.__init__`
passes (lines 170-220): `Exoscale` never passes a `session`, so each family
client receives the single class-level default session object. -/
def mkAPI (key secret : String) (mr : Int) (tr : Bool)
    (endpoint zone : Option String) : FamilyAPI :=
  { endpoint := endpoint
    key := key
    secret := secret
    zone := zone
    max_retries := mr
    trace := tr
    session := defaultSessionId }

/-- A successfully constructed `Exoscale` client. -/
structure Client where
  api_key : String
  api_secret : String
  compute : FamilyAPI
  dns : FamilyAPI
  storage : FamilyAPI
  runstatus : FamilyAPI
  iam : FamilyAPI
deriving DecidableEq, Repr

/-- Lines 167-220: populate the client from the resolved fields. -/
def mkClient (args : Args) (f : Fields) (key secret : String) : Client :=
  { api_key := key
    api_secret := secret
    compute :=
      mkAPI key secret args.max_retries args.trace f.compute_api_endpoint none
    dns := mkAPI key secret args.max_retries args.trace f.dns_api_endpoint none
    storage :=
      mkAPI key secret args.max_retries args.trace f.storage_api_endpoint
        f.storage_zone
    runstatus :=
      mkAPI key secret args.max_retries args.trace f.runstatus_api_endpoint none
    iam := mkAPI key secret args.max_retries args.trace f.iam_api_endpoint none }

/-- Lines 164-168: `if api_key is None or api_secret is None: raise` — note
the check is `is None`, not truthiness. -/
def finalize (args : Args) (f : Fields) : Except Err Client :=
  match f.api_key, f.api_secret with
  | some key, some secret => .ok (mkClient args f key secret)
  | none, _ => .error (.configurationError "missing API key/secret")
  | _, none => .error (.configurationError "missing API key/secret")

/-- `Exoscale.__init__` in full: either a constructed client or the exception
that aborted construction. -/
def construct (args : Args) (env : Env) (fs : Fs) : Except Err Client :=
  match resolveFields args env fs with
  | .error e => .error e
  | .ok f => finalize args f

/-! ### `exoscale/api/__init__.py`: the traced `API.send` -/

/-- The prepared outbound request (`requests.Request(**kwargs).prepare()`). -/
structure PreparedRequest where
  method : String
  url : String
  headers : List (String × String)
  body : Option String
deriving DecidableEq, Repr

/-- The HTTP response as `API.send` inspects it. -/
structure Response where
  status_code : Nat
  reason : String
  headers : List (String × String)
  text : String
deriving DecidableEq, Repr

/-- A deterministic rendering of a header mapping, standing for Python's
dict formatting inside the trace lines. -/
def headersStr (hs : List (String × String)) : String :=
  String.intercalate ", " (hs.map (fun kv => kv.1 ++ ": " ++ kv.2))

/-- Lines 89-99: the trace lines printed to stderr before the request is
sent. The body line is printed only when `req.body` is truthy. -/
def preTraceLines (req : PreparedRequest) : List String :=
  [">>> " ++ req.method ++ " " ++ req.url,
   "    headers:" ++ headersStr req.headers] ++
  (if truthy req.body then ["    body:" ++ req.body.getD ""] else [])

/-- Lines 103-114: the trace lines printed to stderr after a response. -/
def postTraceLines (res : Response) : List String :=
  ["<<< " ++ toString res.status_code ++ " " ++ res.reason,
   "    headers:" ++ headersStr res.headers,
   "    body:" ++ res.text]

/-- `API.send` (lines 76-116). The underlying `self.session.send` is the
`transport` parameter; an `.error` on it models the exception it may raise,
which propagates out of `send` after the pre-request trace lines were already
printed. The first component collects every line printed to stderr, in
order. -/
def API.send (trace : Bool) (transport : PreparedRequest → Except String Response)
    (req : PreparedRequest) : List String × Except String Response :=
  let pre := if trace then preTraceLines req else []
  match transport req with
  | .error e => (pre, .error e)
  | .ok res => (pre ++ (if trace then postTraceLines res else []), .ok res)

/-! ### `exoscale/api/__init__.py`: `Resource._reset` over a heap model -/

/-- A `Resource` object: its `attrs`-declared fields, each holding a value or
`None`. -/
structure Resource where
  fields : List (String × Option String)
deriving DecidableEq, Repr

/-- `Resource._reset` (lines 127-133): `for k in asdict(self):
setattr(self, k, None)` — every declared field set to `None`, the set of
field names unchanged. -/
def Resource._reset (r : Resource) : Resource :=
  { fields := r.fields.map (fun kv => (kv.1, none)) }

/-- The Python object store: addresses to resource objects. Every reference
to a resource is an address into this heap, so aliasing is address
equality. -/
def Heap : Type := Nat → Option Resource

/-- Calling `_reset` on the object at address `a`: an in-place update — the
object at `a` is mutated, no new object is allocated and no other address is
touched. -/
def resetAt (h : Heap) (a : Nat) : Heap :=
  fun b => if b = a then (h a).map Resource._reset else h b

/-! ### Helper lemmas -/

theorem fallback_truthy (x y : Option String) (h : truthy x = true) :
    fallback x y = x := by
  simp [fallback, h]

theorem fallback_falsy (x y : Option String) (h : truthy x = false) :
    fallback x y = y := by
  simp [fallback, h]

/-- The precedence contract for one resolvable field: explicit argument, then
profile entry, then environment variable, a falsy value at any level counting
as unset; when every source is falsy the result is itself falsy (unset). -/
def precedence (e pv v result : Option String) : Prop :=
  (truthy e = true → result = e) ∧
  (truthy e = false → truthy pv = true → result = pv) ∧
  (truthy e = false → truthy pv = false → truthy v = true → result = v) ∧
  (truthy e = false → truthy pv = false → truthy v = false →
    truthy result = false)

theorem precedence_fallback2 (e pv v : Option String) :
    precedence e pv v (fallback (fallback e pv) v) := by
  unfold precedence
  cases he : truthy e <;> cases hp : truthy pv <;> cases hv : truthy v <;>
    simp [fallback, he, hp, hv]

theorem precedence_fallback1 (e v : Option String) :
    precedence e none v (fallback e v) := by
  unfold precedence
  cases he : truthy e <;> cases hv : truthy v <;> simp [fallback, he, hv]

theorem construct_ok (args : Args) (env : Env) (fs : Fs) (client : Client)
    (h : construct args env fs = .ok client) :
    ∃ f, resolveFields args env fs = .ok f ∧ finalize args f = .ok client := by
  unfold construct at h
  split at h
  · exact absurd h (by simp)
  · rename_i f hr
    exact ⟨f, hr, h⟩

theorem finalize_ok (args : Args) (f : Fields) (client : Client)
    (h : finalize args f = .ok client) :
    f.api_key = some client.api_key ∧ f.api_secret = some client.api_secret ∧
      client = mkClient args f client.api_key client.api_secret := by
  unfold finalize at h
  split at h
  · rename_i key secret hk hs
    have hc : mkClient args f key secret = client := Except.ok.inj h
    have hkey : client.api_key = key := by rw [← hc]; rfl
    have hsec : client.api_secret = secret := by rw [← hc]; rfl
    refine ⟨?_, ?_, ?_⟩
    · rw [hk, hkey]
    · rw [hs, hsec]
    · rw [hkey, hsec, hc]
  · exact absurd h (by simp)
  · exact absurd h (by simp)

theorem resolveFields_ok (args : Args) (env : Env) (fs : Fs) (f : Fields)
    (h : resolveFields args env fs = .ok f) :
    ∃ cfg?, loadConfig args env fs = .ok cfg? ∧
      ∃ f0, profileStep args cfg? = .ok f0 ∧ f = envMerge f0 env := by
  unfold resolveFields at h
  split at h
  · exact absurd h (by simp)
  · rename_i cfg? hl
    split at h
    · exact absurd h (by simp)
    · rename_i f0 hp
      exact ⟨cfg?, hl, f0, hp, (Except.ok.inj h).symm⟩

theorem findProfile_append (l₁ l₂ : List Profile) (P : Profile) (n : String)
    (hP : P.get? "name" = some n)
    (h : ∀ q ∈ l₁, ∃ m, q.get? "name" = some m ∧ m ≠ n) :
    findProfile (l₁ ++ P :: l₂) (some n) = .ok (some P) := by
  induction l₁ with
  | nil => simp [findProfile, hP]
  | cons a l ih =>
    obtain ⟨m, hm, hne⟩ := h a (by simp)
    simp only [List.cons_append, findProfile, hm]
    rw [if_neg (by simp [hne])]
    exact ih (fun q hq => h q (List.mem_cons_of_mem a hq))

theorem findProfile_none (ps : List Profile) (t : Option String)
    (h : ∀ q ∈ ps, ∃ m, q.get? "name" = some m ∧ some m ≠ t) :
    findProfile ps t = .ok none := by
  induction ps with
  | nil => rfl
  | cons a l ih =>
    obtain ⟨m, hm, hne⟩ := h a (by simp)
    simp only [findProfile, hm]
    rw [if_neg (by simp [hne])]
    exact ih (fun q hq => h q (List.mem_cons_of_mem a hq))

theorem getProfile_cons (c : Config) (a : Profile) (rest : List Profile)
    (arg : Option String) (hps : c.profiles = some (a :: rest)) :
    getProfile c arg =
      (if truthy arg || c.default_profile.isSome then
        (let target : Option String :=
          if c.default_profile.isSome && !truthy arg then c.default_profile
          else arg
         match findProfile (a :: rest) target with
         | .error e => .error e
         | .ok (some q) => .ok q
         | .ok none =>
           .error (.configurationError
             ("profile \"" ++ target.getD "" ++ "\" not found")))
      else .ok a) := by
  unfold getProfile
  rw [hps]

/-! ### Concrete fixtures for witnesses and counterexamples -/

/-- An empty process environment. -/
def envNone : Env := fun _ => none

/-- An empty filesystem. -/
def fsNone : Fs := fun _ => none

/-- Resolvable fields with every field unset. -/
def fieldsNone : Fields := ⟨none, none, none, none, none, none, none, none⟩

/-- A well-formed profile named `"default"`. -/
def pDefault : Profile :=
  ⟨[("name", "default"), ("api_key", "k1"), ("api_secret", "s1")]⟩

/-- A well-formed profile named `"other"`. -/
def pOther : Profile :=
  ⟨[("name", "other"), ("api_key", "k2"), ("api_secret", "s2")]⟩

/-- A configuration with two profiles and `default_profile = "other"`. -/
def cfgTwo : Config := ⟨some [pDefault, pOther], some "other", false⟩

/-- A profile missing its `api_secret` key. -/
def pNoSecret : Profile := ⟨[("name", "default"), ("api_key", "k1")]⟩

/-- A configuration whose only profile is missing `api_secret`. -/
def cfgNoSecret : Config := ⟨some [pNoSecret], none, false⟩

/-- A filesystem with `cfgNoSecret` at the well-known default path. -/
def fsNoSecret : Fs := fun p =>
  if p = _DEFAULT_CONFIG_FILE then some cfgNoSecret else none

/-- An environment that supplies an API secret. -/
def envSecret : Env := fun k =>
  if k = _API_SECRET_ENVVAR then some "env-secret" else none

/-- An environment with the API-key and API-secret variables set to `""`. -/
def envC10 : Env := fun k =>
  if k = _API_KEY_ENVVAR then some ""
  else if k = _API_SECRET_ENVVAR then some "" else none

/-! ### Claims -/

/-- **C3**: for every construction attempt, if after consulting the
configuration-file profile, the environment variables and the explicit
arguments the `api_key` or `api_secret` is still unset (`None`), construction
raises `ConfigurationError` and no client object is produced. -/
theorem c3_missing_credentials (args : Args) (env : Env) (fs : Fs) (f : Fields)
    (hf : resolveFields args env fs = .ok f)
    (h : f.api_key = none ∨ f.api_secret = none) :
    construct args env fs =
      .error (.configurationError "missing API key/secret") := by
  have hcf : construct args env fs = finalize args f := by
    unfold construct; rw [hf]
  rw [hcf]
  unfold finalize
  rcases h with h | h
  · rw [h]; cases f.api_secret <;> rfl
  · rw [h]; cases f.api_key <;> rfl

/-- Witness for C3: with no configuration sources at all, construction fails
with the missing-credentials error. -/
theorem c3_missing_credentials_witness :
    construct {} envNone fsNone =
      .error (.configurationError "missing API key/secret") :=
  c3_missing_credentials {} envNone fsNone fieldsNone rfl (Or.inl rfl)

/-- **C4**: a configuration file that is loaded but has no `profiles` entry or
an empty `profiles` list makes construction raise `ConfigurationError`
("no profiles configured") — regardless of the environment, which is
universally quantified here. -/
theorem c4_empty_profiles (args : Args) (env : Env) (fs : Fs) (c : Config)
    (hload : loadConfig args env fs = .ok (some c))
    (h : c.profiles = none ∨ c.profiles = some []) :
    construct args env fs =
      .error (.configurationError "no profiles configured") := by
  have hgp : getProfile c args.profile =
      .error (.configurationError "no profiles configured") := by
    rcases h with h | h <;> simp [getProfile, h]
  have hps : profileStep args (some c) =
      .error (.configurationError "no profiles configured") := by
    simp [profileStep, hgp]
  simp [construct, resolveFields, hload, hps]

/-- Witness for C4: a default-path configuration file with an empty profile
list aborts construction even though the environment supplies a secret. -/
theorem c4_empty_profiles_witness :
    construct {} envSecret (fun p =>
        if p = _DEFAULT_CONFIG_FILE then some ⟨some [], none, false⟩
        else none) =
      .error (.configurationError "no profiles configured") :=
  c4_empty_profiles {} envSecret _ ⟨some [], none, false⟩ rfl (Or.inr rfl)

theorem construct_profile_error (args : Args) (env : Env) (fs : Fs)
    (c : Config) (p : Profile) (k : String)
    (hload : loadConfig args env fs = .ok (some c))
    (hgp : getProfile c args.profile = .ok p)
    (hk : requiredKeyCheck p = some k) :
    construct args env fs =
      .error (.configurationError ("profile missing \"" ++ k ++ "\" key")) := by
  have hps : profileStep args (some c) =
      .error (.configurationError ("profile missing \"" ++ k ++ "\" key")) := by
    simp [profileStep, hgp, hk]
  simp [construct, resolveFields, hload, hps]

/-- **C5**: when the selected profile is missing `name`, `api_key` or
`api_secret`, construction raises a `ConfigurationError` naming a missing
key — before any fallback to environment variables, which are universally
quantified here and cannot prevent the error. -/
theorem c5_profile_missing_key (args : Args) (env : Env) (fs : Fs)
    (c : Config) (p : Profile)
    (hload : loadConfig args env fs = .ok (some c))
    (hgp : getProfile c args.profile = .ok p)
    (h : p.hasKey "name" = false ∨ p.hasKey "api_key" = false ∨
      p.hasKey "api_secret" = false) :
    ∃ k, (k = "name" ∨ k = "api_key" ∨ k = "api_secret") ∧
      p.hasKey k = false ∧
      construct args env fs =
        .error (.configurationError ("profile missing \"" ++ k ++ "\" key")) := by
  cases hn : p.hasKey "name" with
  | false =>
    exact ⟨"name", Or.inl rfl, hn,
      construct_profile_error args env fs c p "name" hload hgp
        (by simp [requiredKeyCheck, List.find?, hn])⟩
  | true =>
    cases hk : p.hasKey "api_key" with
    | false =>
      exact ⟨"api_key", Or.inr (Or.inl rfl), hk,
        construct_profile_error args env fs c p "api_key" hload hgp
          (by simp [requiredKeyCheck, List.find?, hn, hk])⟩
    | true =>
      cases hs : p.hasKey "api_secret" with
      | false =>
        exact ⟨"api_secret", Or.inr (Or.inr rfl), hs,
          construct_profile_error args env fs c p "api_secret" hload hgp
            (by simp [requiredKeyCheck, List.find?, hn, hk, hs])⟩
      | true => simp_all

/-- Witness for C5: a profile missing `api_secret`, found through the default
config path, aborts construction although the environment has
`EXOSCALE_API_SECRET` set. -/
theorem c5_profile_missing_key_witness :
    ∃ k, (k = "name" ∨ k = "api_key" ∨ k = "api_secret") ∧
      pNoSecret.hasKey k = false ∧
      construct {} envSecret fsNoSecret =
        .error (.configurationError ("profile missing \"" ++ k ++ "\" key")) :=
  c5_profile_missing_key {} envSecret fsNoSecret cfgNoSecret pNoSecret rfl rfl
    (Or.inr (Or.inr rfl))

/-- **C10**: with no configuration file anywhere, no explicit credentials,
and both credential environment variables set to the empty string,
construction succeeds — the final check tests only for `None` — and the
resulting client carries empty-string credentials. -/
theorem c10_empty_env_credentials :
    ∃ client, construct {} envC10 fsNone = .ok client ∧
      client.api_key = "" ∧ client.api_secret = "" :=
  ⟨mkClient {} (envMerge (Args.fields {}) envC10) "" "", rfl, rfl, rfl⟩

/-- **C2**: profile selection from a loaded configuration. In order: an
explicit (truthy) profile name is selected by exact string equality — first
match in file order — even when the file carries a `default_profile`; absent
a truthy explicit name, a `default_profile` entry is selected the same way;
a searched name matching no profile raises `ConfigurationError`; with
neither an explicit name nor a `default_profile` and at least one profile,
the first profile in file order is selected without error. (Profiles are
assumed to carry `name` entries where the search must pass over them, as the
spec's data-model invariant requires.) -/
theorem c2_profile_selection :
    (∀ (c : Config) (n : String) (l₁ l₂ : List Profile) (P : Profile),
      c.profiles = some (l₁ ++ P :: l₂) → n ≠ "" → P.get? "name" = some n →
      (∀ q ∈ l₁, ∃ m, q.get? "name" = some m ∧ m ≠ n) →
      getProfile c (some n) = .ok P) ∧
    (∀ (c : Config) (d : String) (arg : Option String)
        (l₁ l₂ : List Profile) (P : Profile),
      c.profiles = some (l₁ ++ P :: l₂) → c.default_profile = some d →
      truthy arg = false → P.get? "name" = some d →
      (∀ q ∈ l₁, ∃ m, q.get? "name" = some m ∧ m ≠ d) →
      getProfile c arg = .ok P) ∧
    (∀ (c : Config) (ps : List Profile) (n : String),
      c.profiles = some ps → ps ≠ [] → n ≠ "" →
      (∀ q ∈ ps, ∃ m, q.get? "name" = some m ∧ m ≠ n) →
      getProfile c (some n) =
        .error (.configurationError ("profile \"" ++ n ++ "\" not found"))) ∧
    (∀ (c : Config) (ps : List Profile) (d : String) (arg : Option String),
      c.profiles = some ps → ps ≠ [] → c.default_profile = some d →
      truthy arg = false →
      (∀ q ∈ ps, ∃ m, q.get? "name" = some m ∧ m ≠ d) →
      getProfile c arg =
        .error (.configurationError ("profile \"" ++ d ++ "\" not found"))) ∧
    (∀ (c : Config) (a : Profile) (rest : List Profile) (arg : Option String),
      c.profiles = some (a :: rest) → c.default_profile = none →
      truthy arg = false → getProfile c arg = .ok a) := by
  refine ⟨?_, ?_, ?_, ?_, ?_⟩
  · intro c n l₁ l₂ P hps hn hP hmiss
    have hfind := findProfile_append l₁ l₂ P n hP hmiss
    rcases l₁ with _ | ⟨a, l⟩ <;>
      simp only [List.nil_append, List.cons_append] at hps hfind <;>
      rw [getProfile_cons c _ _ _ hps] <;>
      simp [hn, hfind]
  · intro c d arg l₁ l₂ P hps hd harg hP hmiss
    have hfind := findProfile_append l₁ l₂ P d hP hmiss
    rcases l₁ with _ | ⟨a, l⟩ <;>
      simp only [List.nil_append, List.cons_append] at hps hfind <;>
      rw [getProfile_cons c _ _ _ hps] <;>
      simp [harg, hd, hfind]
  · intro c ps n hps hne hn hmiss
    have hfind := findProfile_none ps (some n)
      (fun q hq => by
        obtain ⟨m, hm, hne'⟩ := hmiss q hq
        exact ⟨m, hm, by simp [hne']⟩)
    rcases ps with _ | ⟨a, rest⟩
    · exact absurd rfl hne
    · rw [getProfile_cons c _ _ _ hps]
      simp [hn, hfind]
  · intro c ps d arg hps hne hd harg hmiss
    have hfind := findProfile_none ps (some d)
      (fun q hq => by
        obtain ⟨m, hm, hne'⟩ := hmiss q hq
        exact ⟨m, hm, by simp [hne']⟩)
    rcases ps with _ | ⟨a, rest⟩
    · exact absurd rfl hne
    · rw [getProfile_cons c _ _ _ hps]
      simp [harg, hd, hfind]
  · intro c a rest arg hps hd harg
    rw [getProfile_cons c _ _ _ hps]
    simp [harg, hd]

/-- Witness for C2: with `default_profile = "other"`, an explicit name
`"default"` still selects the profile named `"default"`. -/
theorem c2_profile_selection_witness :
    getProfile cfgTwo (some "default") = .ok pDefault :=
  c2_profile_selection.1 cfgTwo "default" [] [pOther] pDefault rfl
    (by decide) rfl (by simp)

/-- **C1**: for every resolvable field, the value a successful construction
chose obeys the precedence explicit argument → profile entry (when a
configuration was used) → environment variable, where a falsy value (empty
string or `None`) at any level counts as unset and falls through; when every
source is falsy, the chosen value is itself falsy (absent). -/
theorem c1_field_precedence (args : Args) (env : Env) (fs : Fs)
    (client : Client) (h : construct args env fs = .ok client) :
    (loadConfig args env fs = .ok none →
      precedence args.api_key none (env _API_KEY_ENVVAR)
        (some client.api_key) ∧
      precedence args.api_secret none (env _API_SECRET_ENVVAR)
        (some client.api_secret) ∧
      precedence args.compute_api_endpoint none
        (env _COMPUTE_API_ENDPOINT_ENVVAR) client.compute.endpoint ∧
      precedence args.dns_api_endpoint none (env _DNS_API_ENDPOINT_ENVVAR)
        client.dns.endpoint ∧
      precedence args.storage_api_endpoint none
        (env _STORAGE_API_ENDPOINT_ENVVAR) client.storage.endpoint ∧
      precedence args.storage_zone none (env _STORAGE_ZONE_ENVVAR)
        client.storage.zone ∧
      precedence args.runstatus_api_endpoint none
        (env _RUNSTATUS_API_ENDPOINT_ENVVAR) client.runstatus.endpoint ∧
      precedence args.iam_api_endpoint none (env _IAM_API_ENDPOINT_ENVVAR)
        client.iam.endpoint) ∧
    (∀ (c : Config) (p : Profile), loadConfig args env fs = .ok (some c) →
      getProfile c args.profile = .ok p →
      precedence args.api_key (p.get? "api_key") (env _API_KEY_ENVVAR)
        (some client.api_key) ∧
      precedence args.api_secret (p.get? "api_secret")
        (env _API_SECRET_ENVVAR) (some client.api_secret) ∧
      precedence args.compute_api_endpoint (p.get? "compute_api_endpoint")
        (env _COMPUTE_API_ENDPOINT_ENVVAR) client.compute.endpoint ∧
      precedence args.dns_api_endpoint (p.get? "dns_api_endpoint")
        (env _DNS_API_ENDPOINT_ENVVAR) client.dns.endpoint ∧
      precedence args.storage_api_endpoint (p.get? "storage_api_endpoint")
        (env _STORAGE_API_ENDPOINT_ENVVAR) client.storage.endpoint ∧
      precedence args.storage_zone (p.get? "storage_zone")
        (env _STORAGE_ZONE_ENVVAR) client.storage.zone ∧
      precedence args.runstatus_api_endpoint (p.get? "runstatus_api_endpoint")
        (env _RUNSTATUS_API_ENDPOINT_ENVVAR) client.runstatus.endpoint ∧
      precedence args.iam_api_endpoint (p.get? "iam_api_endpoint")
        (env _IAM_API_ENDPOINT_ENVVAR) client.iam.endpoint) := by
  obtain ⟨f, hf, hfin⟩ := construct_ok args env fs client h
  obtain ⟨hkey, hsec, hcl⟩ := finalize_ok args f client hfin
  obtain ⟨cfg?, hload, f0, hps, hfdef⟩ := resolveFields_ok args env fs f hf
  have hcomp : client.compute.endpoint = f.compute_api_endpoint := by
    rw [hcl]; rfl
  have hdns : client.dns.endpoint = f.dns_api_endpoint := by rw [hcl]; rfl
  have hsto : client.storage.endpoint = f.storage_api_endpoint := by
    rw [hcl]; rfl
  have hzone : client.storage.zone = f.storage_zone := by rw [hcl]; rfl
  have hrun : client.runstatus.endpoint = f.runstatus_api_endpoint := by
    rw [hcl]; rfl
  have hiam : client.iam.endpoint = f.iam_api_endpoint := by rw [hcl]; rfl
  constructor
  · intro hnone
    obtain rfl : cfg? = none := Except.ok.inj (hload.symm.trans hnone)
    have hf0 : f0 = Args.fields args := (Except.ok.inj hps).symm
    rw [hf0] at hfdef
    refine ⟨?_, ?_, ?_, ?_, ?_, ?_, ?_, ?_⟩
    · rw [← hkey, hfdef]; exact precedence_fallback1 _ _
    · rw [← hsec, hfdef]; exact precedence_fallback1 _ _
    · rw [hcomp, hfdef]; exact precedence_fallback1 _ _
    · rw [hdns, hfdef]; exact precedence_fallback1 _ _
    · rw [hsto, hfdef]; exact precedence_fallback1 _ _
    · rw [hzone, hfdef]; exact precedence_fallback1 _ _
    · rw [hrun, hfdef]; exact precedence_fallback1 _ _
    · rw [hiam, hfdef]; exact precedence_fallback1 _ _
  · intro c p hsome hgp
    obtain rfl : cfg? = some c := Except.ok.inj (hload.symm.trans hsome)
    have hf0 : f0 = mergeProfile (Args.fields args) p := by
      simp only [profileStep, hgp] at hps
      split at hps
      · exact absurd hps (by simp)
      · exact (Except.ok.inj hps).symm
    rw [hf0] at hfdef
    refine ⟨?_, ?_, ?_, ?_, ?_, ?_, ?_, ?_⟩
    · rw [← hkey, hfdef]; exact precedence_fallback2 _ _ _
    · rw [← hsec, hfdef]; exact precedence_fallback2 _ _ _
    · rw [hcomp, hfdef]; exact precedence_fallback2 _ _ _
    · rw [hdns, hfdef]; exact precedence_fallback2 _ _ _
    · rw [hsto, hfdef]; exact precedence_fallback2 _ _ _
    · rw [hzone, hfdef]; exact precedence_fallback2 _ _ _
    · rw [hrun, hfdef]; exact precedence_fallback2 _ _ _
    · rw [hiam, hfdef]; exact precedence_fallback2 _ _ _

/-- Arguments with explicit credentials only, for the C1 witness. -/
def argsC1 : Args := { api_key := some "K", api_secret := some "S" }

/-- The client `construct argsC1 envNone fsNone` produces. -/
def clientC1 : Client :=
  mkClient argsC1 (envMerge (Args.fields argsC1) envNone) "K" "S"

/-- Witness for C1: with no configuration file and no environment, the
explicit `api_key` argument wins. -/
theorem c1_field_precedence_witness :
    precedence argsC1.api_key none (envNone _API_KEY_ENVVAR)
      (some clientC1.api_key) :=
  ((c1_field_precedence argsC1 envNone fsNone clientC1 rfl).1 rfl).1

/-- A configuration file parsing to an empty TOML table (a falsy dict). -/
def emptyCfg : Config := ⟨none, none, false⟩

/-- A non-empty configuration, placed at the well-known default path for the
C6 counterexample. -/
def defCfg : Config := ⟨some [pDefault], none, false⟩

/-- A filesystem with an empty-table file at the explicit path and `defCfg`
at the well-known default path. -/
def fsC6 : Fs := fun p =>
  if p = "explicit.toml" then some emptyCfg
  else if p = _DEFAULT_CONFIG_FILE then some defCfg else none

/-- Arguments naming the explicit config file path. -/
def argsC6 : Args := { config_file := some "explicit.toml" }

/-- Counterexample to C6 as stated: the explicit path argument is present and
a file exists there, yet the configuration used is the one at the well-known
default path — the explicitly named file parses to an empty (falsy) table, so
line 79 falls through to the default path. -/
theorem c6_counterexample :
    fsC6 "explicit.toml" = some emptyCfg ∧
    loadConfig argsC6 envNone fsC6 = .ok (some defCfg) ∧
    defCfg ≠ emptyCfg :=
  ⟨rfl, rfl, by decide⟩

/-- **C6 amended**: the configuration file is located by consulting the
explicit path argument, then the config-file environment variable, then the
well-known default path; an earlier source, when present, is the one used —
*except* that a located file whose content parses to an empty (falsy) table
is treated as absent, falling through to the well-known default path when a
file exists there (and otherwise the empty content is kept). -/
theorem c6_amended_file_location :
    (∀ (args : Args) (env : Env), truthy args.config_file = true →
      choosePath args env = args.config_file) ∧
    (∀ (args : Args) (env : Env), truthy args.config_file = false →
      choosePath args env = env _CONFIG_FILE_ENVVAR) ∧
    (∀ (args : Args) (env : Env) (fs : Fs) (p : String) (c : Config),
      choosePath args env = some p → p ≠ "" → fs p = some c →
      c.truthyDict = true → loadConfig args env fs = .ok (some c)) ∧
    (∀ (args : Args) (env : Env) (fs : Fs) (p : String) (c d : Config),
      choosePath args env = some p → p ≠ "" → fs p = some c →
      c.truthyDict = false → fs _DEFAULT_CONFIG_FILE = some d →
      loadConfig args env fs = .ok (some d)) ∧
    (∀ (args : Args) (env : Env) (fs : Fs) (p : String) (c : Config),
      choosePath args env = some p → p ≠ "" → fs p = some c →
      c.truthyDict = false → fs _DEFAULT_CONFIG_FILE = none →
      loadConfig args env fs = .ok (some c)) ∧
    (∀ (args : Args) (env : Env) (fs : Fs) (d : Config),
      truthy (choosePath args env) = false →
      fs _DEFAULT_CONFIG_FILE = some d →
      loadConfig args env fs = .ok (some d)) ∧
    (∀ (args : Args) (env : Env) (fs : Fs),
      truthy (choosePath args env) = false →
      fs _DEFAULT_CONFIG_FILE = none →
      loadConfig args env fs = .ok none) := by
  refine ⟨?_, ?_, ?_, ?_, ?_, ?_, ?_⟩
  · intro args env h; simp [choosePath, h]
  · intro args env h; simp [choosePath, h]
  · intro args env fs p c hch hp hfsp htr
    simp [loadConfig, hch, hp, openFile, hfsp, htr, Except.map]
  · intro args env fs p c d hch hp hfsp htr hdef
    simp [loadConfig, hch, hp, openFile, hfsp, htr, hdef, Except.map]
  · intro args env fs p c hch hp hfsp htr hdef
    simp [loadConfig, hch, hp, openFile, hfsp, htr, hdef, Except.map]
  · intro args env fs d hch hdef
    rcases hcp : choosePath args env with _ | p
    · simp [loadConfig, hcp, hdef]
    · rw [hcp] at hch
      have hp : p = "" := by simpa using hch
      subst hp
      simp [loadConfig, hcp, hdef]
  · intro args env fs hch hdef
    rcases hcp : choosePath args env with _ | p
    · simp [loadConfig, hcp, hdef]
    · rw [hcp] at hch
      have hp : p = "" := by simpa using hch
      subst hp
      simp [loadConfig, hcp, hdef]

/-- A filesystem with `defCfg` at the explicit path only. -/
def fsC6W : Fs := fun p => if p = "explicit.toml" then some defCfg else none

/-- Witness for the amended C6: an explicit path whose file parses to a
non-empty table is the one used. -/
theorem c6_amended_file_location_witness :
    loadConfig argsC6 envNone fsC6W = .ok (some defCfg) :=
  c6_amended_file_location.2.2.1 argsC6 envNone fsC6W "explicit.toml" defCfg
    rfl (by decide) rfl rfl

/-- A transport whose `session.send` raises a connection error. -/
def t0 : PreparedRequest → Except String Response :=
  fun _ => .error "connection refused"

/-- A concrete prepared request. -/
def req0 : PreparedRequest :=
  ⟨"GET", "https://api.example/v1", [("Accept", "*")], none⟩

/-- Counterexample to C7 as stated: with tracing enabled and the transport
failing, it is neither the case that the request failed before any trace line
was emitted, nor that both pre- and post-response lines were emitted — the
pre-request lines alone were printed before the failure propagated. -/
theorem c7_counterexample :
    (¬ (((API.send true t0 req0).1 = []) ∨
        (∃ res, (API.send true t0 req0).2 = .ok res ∧
          (API.send true t0 req0).1 =
            preTraceLines req0 ++ postTraceLines res))) ∧
    (API.send true t0 req0).1 = preTraceLines req0 ∧
    (API.send true t0 req0).2 = .error "connection refused" := by
  refine ⟨?_, rfl, rfl⟩
  rintro (h | ⟨res, hres, -⟩)
  · exact absurd h (by simp [API.send, t0, preTraceLines, req0])
  · exact absurd hres (by simp [API.send, t0])

/-- **C7 amended**: tracing never alters the response returned to the caller;
with tracing enabled, a successful transport send emits the pre-request and
post-response trace lines both, while a transport failure propagates after
the pre-request lines alone were emitted; with tracing disabled nothing is
emitted. -/
theorem c7_amended_tracing
    (transport : PreparedRequest → Except String Response)
    (req : PreparedRequest) :
    ((API.send true transport req).2 = transport req ∧
     (API.send false transport req).2 = transport req) ∧
    (∀ res, transport req = .ok res →
      (API.send true transport req).1 =
        preTraceLines req ++ postTraceLines res) ∧
    (∀ e, transport req = .error e →
      (API.send true transport req).1 = preTraceLines req) ∧
    (API.send false transport req).1 = [] := by
  refine ⟨⟨?_, ?_⟩, ?_, ?_, ?_⟩
  · cases htr : transport req <;> simp [API.send, htr]
  · cases htr : transport req <;> simp [API.send, htr]
  · intro res hres; simp [API.send, hres]
  · intro e he; simp [API.send, he]
  · cases htr : transport req <;> simp [API.send, htr]

/-- A transport that answers with a fixed 200 response. -/
def tOk : PreparedRequest → Except String Response :=
  fun _ => .ok ⟨200, "OK", [], "body"⟩

/-- Witness for the amended C7: on a successful send with tracing on, the
emitted lines are exactly the pre-request lines followed by the
post-response lines. -/
theorem c7_amended_tracing_witness :
    (API.send true tOk req0).1 =
      preTraceLines req0 ++ postTraceLines ⟨200, "OK", [], "body"⟩ :=
  (c7_amended_tracing tOk req0).2.1 ⟨200, "OK", [], "body"⟩ rfl

/-- **C8**: calling `_reset` on the resource object at address `a` blanks
every declared field of that object in place: the object at `a` (and hence
through every alias of that address) has the same field names with all values
`None`, and no other address is touched — no reallocation happens. -/
theorem c8_reset_in_place (h : Heap) (a : Nat) (r : Resource)
    (hr : h a = some r) :
    resetAt h a a = some (Resource._reset r) ∧
    (Resource._reset r).fields.map Prod.fst = r.fields.map Prod.fst ∧
    (∀ kv ∈ (Resource._reset r).fields, kv.2 = none) ∧
    (∀ b, b ≠ a → resetAt h a b = h b) := by
  refine ⟨?_, ?_, ?_, ?_⟩
  · simp [resetAt, hr]
  · simp [Resource._reset]
  · intro kv hkv
    simp only [Resource._reset, List.mem_map] at hkv
    obtain ⟨x, hx, rfl⟩ := hkv
    rfl
  · intro b hb
    simp [resetAt, hb]

/-- A heap with a one-field resource at address 0. -/
def heap0 : Heap := fun b =>
  if b = 0 then some ⟨[("res", some "x")]⟩ else none

/-- Witness for C8: resetting the object at address 0 blanks it in place. -/
theorem c8_reset_in_place_witness :
    resetAt heap0 0 0 = some (Resource._reset ⟨[("res", some "x")]⟩) :=
  (c8_reset_in_place heap0 0 ⟨[("res", some "x")]⟩ rfl).1

/-- **C9**: each family client of a successfully constructed `Exoscale`
client carries the single class-level default session object — shared across
the five families and across distinct top-level clients — and the api key,
secret, max_retries and trace settings are passed identically to all five
family clients. -/
theorem c9_shared_session (args : Args) (env : Env) (fs : Fs)
    (client : Client) (h : construct args env fs = .ok client) :
    (client.compute.session = defaultSessionId ∧
     client.dns.session = defaultSessionId ∧
     client.storage.session = defaultSessionId ∧
     client.runstatus.session = defaultSessionId ∧
     client.iam.session = defaultSessionId) ∧
    (∀ (args' : Args) (env' : Env) (fs' : Fs) (client' : Client),
      construct args' env' fs' = .ok client' →
      client.compute.session = client'.iam.session) ∧
    (client.compute.key = client.api_key ∧ client.dns.key = client.api_key ∧
     client.storage.key = client.api_key ∧
     client.runstatus.key = client.api_key ∧
     client.iam.key = client.api_key) ∧
    (client.compute.secret = client.api_secret ∧
     client.dns.secret = client.api_secret ∧
     client.storage.secret = client.api_secret ∧
     client.runstatus.secret = client.api_secret ∧
     client.iam.secret = client.api_secret) ∧
    (client.compute.max_retries = args.max_retries ∧
     client.dns.max_retries = args.max_retries ∧
     client.storage.max_retries = args.max_retries ∧
     client.runstatus.max_retries = args.max_retries ∧
     client.iam.max_retries = args.max_retries) ∧
    (client.compute.trace = args.trace ∧ client.dns.trace = args.trace ∧
     client.storage.trace = args.trace ∧
     client.runstatus.trace = args.trace ∧
     client.iam.trace = args.trace) := by
  obtain ⟨f, hf, hfin⟩ := construct_ok args env fs client h
  obtain ⟨-, -, hcl⟩ := finalize_ok args f client hfin
  refine ⟨⟨?_, ?_, ?_, ?_, ?_⟩, ?_, ⟨?_, ?_, ?_, ?_, ?_⟩,
    ⟨?_, ?_, ?_, ?_, ?_⟩, ⟨?_, ?_, ?_, ?_, ?_⟩, ⟨?_, ?_, ?_, ?_, ?_⟩⟩
  all_goals try (rw [hcl]; rfl)
  intro args' env' fs' client' h'
  obtain ⟨f', hf', hfin'⟩ := construct_ok args' env' fs' client' h'
  obtain ⟨-, -, hcl'⟩ := finalize_ok args' f' client' hfin'
  rw [hcl, hcl']; rfl

/-- Witness for C9: the compute family client of a concrete construction
uses the shared default session. -/
theorem c9_shared_session_witness :
    clientC1.compute.session = defaultSessionId :=
  (c9_shared_session argsC1 envNone fsNone clientC1 rfl).1.1

end Exoscale
